import Mathlib

/-!
Shallow embedding of the GreenPiThumb concurrency-and-timing control core:
the pump actuation gate (pump.py, Pump.pump_water), the pump scheduler and
manager (pump.py), the freshness cache (arduino_sensors.py), the watering
history seeding (pump_history.py and greenpithumb.py), and the record
processor (record_processor.py).

Locks are modelled sequentially: a call observes the lock state at entry and
every lock it acquires is released before it returns (release runs in a
finally block in the source), so the outcome records the entry lock state,
the returned value and the ordered trace of lock and hardware events.
-/

namespace GreenPiThumb

/-- State of the two shared pump locks at the entry of a call:
exclusive-pump lock and someone-pumping lock. -/
structure LockState where
  exclusiveLocked : Bool
  someoneLocked : Bool
deriving DecidableEq

/-- Observable events of one pump_water call, in program order: lock
operations, the two-byte hardware commands (tag a = on, tag z = off)
and the timed wait on the injected clock. -/
inductive Event where
  | acquireExclusive
  | releaseExclusive
  | acquireSomeone
  | releaseSomeone
  | hwOn (pumpId : Nat)
  | hwOff (pumpId : Nat)
  | clockWait (seconds : ℚ)
deriving DecidableEq

/-- True for events that touch hardware or perform the timed wait. -/
def Event.isHardware : Event → Bool
  | .hwOn _ => true
  | .hwOff _ => true
  | .clockWait _ => true
  | _ => false

/-- Python value returned by pump_water (True, False, or the implicit None
of a bare return), or the ValueError it raises. -/
inductive PumpRet where
  | retFalse
  | retNone
  | retTrue
  | raisedValueError
deriving DecidableEq

/-- Configuration of one Pump instance (pump.py, Pump.__init__):
pump identity, pump rate (stored as int) and exclusivity flag. -/
structure Pump where
  pump_id : Nat
  pump_rate : Int
  pump_exclusivity : Bool
deriving DecidableEq

/-- Result of one pump_water call: the returned or raised value, the lock
state after the call (the finally block releases every lock the call
acquired, so it equals the entry state) and the event trace. -/
structure PumpOutcome where
  ret : PumpRet
  locks : LockState
  trace : List Event
deriving DecidableEq

/-- The try block of pump_water (pump.py lines 58 to 76): zero amount is a
bare return (None), negative raises ValueError, positive sends the on
command, waits amount divided by rate seconds, sends the off command and
returns True.  The source assumes a nonzero pump rate. -/
def pump_water_body (p : Pump) (amount_ml : ℚ) : PumpRet × List Event :=
  if amount_ml = 0 then (.retNone, [])
  else if amount_ml < 0 then (.raisedValueError, [])
  else (.retTrue,
    [.hwOn p.pump_id, .clockWait (amount_ml / (p.pump_rate : ℚ)), .hwOff p.pump_id])

/-- Pump.pump_water (pump.py lines 38 to 84).  Gate: if the exclusive lock
is held, return False at once; an exclusive pump also returns False when the
someone-pumping lock is held and otherwise holds the exclusive lock for the
whole body; a non-exclusive pump try-acquires the someone-pumping lock
without blocking and runs the body whether or not the attempt succeeded.
The finally block releases exactly the locks acquired, on every exit path. -/
def pump_water (p : Pump) (s : LockState) (amount_ml : ℚ) : PumpOutcome :=
  if s.exclusiveLocked then
    { ret := .retFalse, locks := s, trace := [] }
  else if p.pump_exclusivity then
    if s.someoneLocked then
      { ret := .retFalse, locks := s, trace := [] }
    else
      { ret := (pump_water_body p amount_ml).1
        locks := s
        trace := Event.acquireExclusive :: (pump_water_body p amount_ml).2 ++
          [Event.releaseExclusive] }
  else
    if s.someoneLocked then
      { ret := (pump_water_body p amount_ml).1
        locks := s
        trace := (pump_water_body p amount_ml).2 }
    else
      { ret := (pump_water_body p amount_ml).1
        locks := s
        trace := Event.acquireSomeone :: (pump_water_body p amount_ml).2 ++
          [Event.releaseSomeone] }

/-- Configuration of a PumpManager (pump.py, PumpManager.__init__): the pump,
the soil moisture threshold and the amount (stored as int) pumped per run.
The scheduler verdict and the timer expiry are passed to each call as the
values the collaborators would return. -/
structure PumpManager where
  pump : Pump
  moisture_threshold : Int
  pump_amount : Int
deriving DecidableEq

/-- PumpManager._should_pump (pump.py lines 128 to 132): false when the
scheduler disallows, else moisture below threshold or timer expired. -/
def should_pump (m : PumpManager) (allowed timerExpired : Bool) (moisture : Int) : Bool :=
  if !allowed then false
  else decide (moisture < m.moisture_threshold) || timerExpired

/-- Result of one pump_if_needed call: the returned volume in mL, whether
the timer was reset, whether the pump was called, whether a ValueError
propagated out of the pump call (then no value is returned and the volume
field is meaningless, recorded as 0), and the pump event trace. -/
structure ManagerOutcome where
  volume : Int
  timerReset : Bool
  pumpCalled : Bool
  raised : Bool
  trace : List Event
deriving DecidableEq

/-- PumpManager.pump_if_needed (pump.py lines 111 to 126): when
_should_pump holds, call pump_water with the configured amount, reset the
timer only when the call returned True (Python truth test, so None does not
reset), and return the configured pump amount; otherwise return 0. -/
def pump_if_needed (m : PumpManager) (allowed timerExpired : Bool) (s : LockState)
    (moisture : Int) : ManagerOutcome :=
  if should_pump m allowed timerExpired moisture then
    if (pump_water m.pump s (m.pump_amount : ℚ)).ret = .raisedValueError then
      { volume := 0, timerReset := false, pumpCalled := true, raised := true,
        trace := (pump_water m.pump s (m.pump_amount : ℚ)).trace }
    else
      { volume := m.pump_amount
        timerReset := (pump_water m.pump s (m.pump_amount : ℚ)).ret == .retTrue
        pumpCalled := true
        raised := false
        trace := (pump_water m.pump s (m.pump_amount : ℚ)).trace }
  else
    { volume := 0, timerReset := false, pumpCalled := false, raised := false, trace := [] }

/-- A time of day in seconds after midnight; datetime.time comparison is the
order on the seconds count. -/
def timeOfDay (h m sec : Nat) : Nat := h * 3600 + m * 60 + sec

/-- The per-window test of PumpScheduler.is_running_pump_allowed (pump.py
lines 157 to 164): a window that wraps midnight disallows when the current
time is at or after its start or before its end, a non-wrapping window
disallows from its start inclusive to its end exclusive. -/
def windowDisallows (current_time : Nat) (w : Nat × Nat) : Bool :=
  if w.2 < w.1 then
    decide (current_time ≥ w.1) || decide (current_time < w.2)
  else
    decide (w.1 ≤ current_time) && decide (current_time < w.2)

/-- PumpScheduler.is_running_pump_allowed (pump.py lines 149 to 166): the
loop returns False on the first matching sleep window and True when none
matches. -/
def is_running_pump_allowed (sleep_windows : List (Nat × Nat)) (current_time : Nat) : Bool :=
  sleep_windows.all fun w => !windowDisallows current_time w

/-- The sensor value bundle unpacked from the Arduino response
(arduino_sensors.py lines 71 to 77). -/
structure SensorValues where
  humidity : ℚ
  temperature : ℚ
  window_position : Nat
  pump1_state : Nat
deriving DecidableEq

/-- Cache fields of CachingArduinoSensors: last reading time (per the
injected clock, in seconds) and last reading bundle, None before the first
physical read. -/
structure CacheState where
  last_reading_time : ℚ
  last_reading : Option SensorValues
deriving DecidableEq

/-- _FRESHNESS_THRESHOLD (arduino_sensors.py line 11), in seconds. -/
def freshnessThreshold : ℚ := 50

/-- Result of one _read_arduino call: the returned bundle, the cache state
afterwards and how many physical reads were issued. -/
structure ReadOutcome where
  result : Option SensorValues
  cache : CacheState
  physicalReads : Nat
deriving DecidableEq

/-- CachingArduinoSensors._read_arduino (arduino_sensors.py lines 36 to 54),
under the cache lock.  The bundle a physical read would return is passed in
as current, standing for _get_current_values, whose retry loop against the
hardware is outside the model.  When the cached reading's age reaches the
threshold the cache takes the clock's now and the fresh bundle; otherwise
the cached bundle is returned unchanged with no physical read. -/
def read_arduino (now : ℚ) (current : SensorValues) (s : CacheState) : ReadOutcome :=
  if now - s.last_reading_time ≥ freshnessThreshold then
    { result := some current
      cache := { last_reading_time := now, last_reading := some current }
      physicalReads := 1 }
  else
    { result := s.last_reading, cache := s, physicalReads := 0 }

/-- A persisted watering event row (db_store.WateringEventRecord): pump
identity, timestamp (seconds) and volume pumped. -/
structure WateringEventRecord where
  pump_id : Nat
  timestamp : Int
  water_pumped : Int
deriving DecidableEq

/-- pump_history.last_pump_time (pump_history.py lines 1 to 17) applied to
the list the store's get() returns: None when the list is empty, otherwise
sort ascending by timestamp (a stable sort, like Python's list.sort) and
return the timestamp of the last element.  The function takes no pump
identity and never filters by pump. -/
def last_pump_time (watering_history_list : List WateringEventRecord) : Option Int :=
  ((watering_history_list.insertionSort fun a b => a.timestamp ≤ b.timestamp).getLast?).map
    (fun r => r.timestamp)

/-- The timer seeding computation of make_pump_manager (greenpithumb.py
lines 192 to 203): when a last pump time exists the remaining time is
last plus interval minus now, floored at zero; otherwise zero. -/
def seed_time_remaining (lastPumpTime : Option Int) (pump_interval now : Int) : Int :=
  match lastPumpTime with
  | some t => max 0 (t + pump_interval - now)
  | none => 0

/-- The nine record kinds the record processor dispatches on
(record_processor.py lines 53 to 70). -/
inductive RecordKind where
  | soilMoisture
  | light
  | humidity
  | temperature
  | wateringEvent
  | soilTemperature
  | pumpState
  | windowState
  | mifloraBattery
deriving DecidableEq

/-- A queued record: one constructor per db_store record class the
isinstance chain recognizes, plus a constructor for any other object on the
queue. -/
inductive Record where
  | soilMoisture (payload : Int)
  | light (payload : Int)
  | humidity (payload : Int)
  | temperature (payload : Int)
  | wateringEvent (payload : Int)
  | soilTemperature (payload : Int)
  | pumpState (payload : Int)
  | windowState (payload : Int)
  | mifloraBattery (payload : Int)
  | unrecognized (payload : Int)
deriving DecidableEq

/-- The kind a record's class matches in the isinstance chain, none for an
unrecognized record. -/
def kindOf : Record → Option RecordKind
  | .soilMoisture _ => some .soilMoisture
  | .light _ => some .light
  | .humidity _ => some .humidity
  | .temperature _ => some .temperature
  | .wateringEvent _ => some .wateringEvent
  | .soilTemperature _ => some .soilTemperature
  | .pumpState _ => some .pumpState
  | .windowState _ => some .windowState
  | .mifloraBattery _ => some .mifloraBattery
  | .unrecognized _ => none

/-- The nine stores a RecordProcessor holds (record_processor.py lines 17
to 29), each modelled as the list of records inserted so far. -/
structure Stores where
  soil_moisture_store : List Record
  light_store : List Record
  humidity_store : List Record
  temperature_store : List Record
  watering_event_store : List Record
  soil_temperature_store : List Record
  pump_state_store : List Record
  window_state_store : List Record
  miflora_battery_store : List Record
deriving DecidableEq

/-- The store holding records of a given kind. -/
def storeOf (st : Stores) : RecordKind → List Record
  | .soilMoisture => st.soil_moisture_store
  | .light => st.light_store
  | .humidity => st.humidity_store
  | .temperature => st.temperature_store
  | .wateringEvent => st.watering_event_store
  | .soilTemperature => st.soil_temperature_store
  | .pumpState => st.pump_state_store
  | .windowState => st.window_state_store
  | .mifloraBattery => st.miflora_battery_store

/-- The isinstance dispatch chain of try_process_next_record
(record_processor.py lines 53 to 73): insert the record into the one store
of its class, or none when the record matches no branch and
UnsupportedRecordError is raised. -/
def dispatchRecord (st : Stores) (record : Record) : Option Stores :=
  match record with
  | .soilMoisture _ => some { st with soil_moisture_store := st.soil_moisture_store ++ [record] }
  | .light _ => some { st with light_store := st.light_store ++ [record] }
  | .humidity _ => some { st with humidity_store := st.humidity_store ++ [record] }
  | .temperature _ => some { st with temperature_store := st.temperature_store ++ [record] }
  | .wateringEvent _ => some { st with watering_event_store := st.watering_event_store ++ [record] }
  | .soilTemperature _ =>
    some { st with soil_temperature_store := st.soil_temperature_store ++ [record] }
  | .pumpState _ => some { st with pump_state_store := st.pump_state_store ++ [record] }
  | .windowState _ => some { st with window_state_store := st.window_state_store ++ [record] }
  | .mifloraBattery _ =>
    some { st with miflora_battery_store := st.miflora_battery_store ++ [record] }
  | .unrecognized _ => none

/-- Result of one try_process_next_record call: the returned boolean, none
when UnsupportedRecordError was raised, plus the queue (FIFO, head next to
be dequeued) and the stores afterwards. -/
structure ProcessorOutcome where
  returned : Option Bool
  queue : List Record
  stores : Stores
deriving DecidableEq

/-- RecordProcessor.try_process_next_record (record_processor.py lines 31
to 74): an empty queue returns False at once with nothing touched; otherwise
the head is dequeued with get_nowait before the dispatch, so when the
dispatch raises, the record is already off the queue and no store changed. -/
def try_process_next_record (q : List Record) (st : Stores) : ProcessorOutcome :=
  match q with
  | [] => { returned := some false, queue := [], stores := st }
  | record :: rest =>
    match dispatchRecord st record with
    | some st2 => { returned := some true, queue := rest, stores := st2 }
    | none => { returned := none, queue := rest, stores := st }

/-! Theorems -/

/-- The try block of pump_water emits only hardware events: the lock events
of a trace all come from the gate and the finally block. -/
theorem pump_water_body_only_hardware (p : Pump) (a : ℚ) :
    (pump_water_body p a).2.filter (fun e => !e.isHardware) = [] := by
  unfold pump_water_body
  by_cases h : a = 0
  · simp [h]
  · by_cases h2 : a < 0 <;> simp [h, h2, Event.isHardware]

/-- Claim C1: the concurrency gate of pump_water runs before any hardware
write: when the exclusive-pump lock is held the call returns False with an
empty event trace (no hardware command, no wait, no lock operation); when
the pump is exclusive and the someone-pumping lock is held it likewise
returns False with an empty trace; when the pump is exclusive and both
locks are free it holds the exclusive lock around the whole body; when the
pump is non-exclusive and its non-blocking attempt on the someone-pumping
lock fails it still runs the body, holding no lock at all. -/
theorem pump_water_gate_spec (p : Pump) (s : LockState) (a : ℚ) :
    (s.exclusiveLocked = true →
      pump_water p s a = ⟨.retFalse, s, []⟩) ∧
    (s.exclusiveLocked = false → p.pump_exclusivity = true → s.someoneLocked = true →
      pump_water p s a = ⟨.retFalse, s, []⟩) ∧
    (s.exclusiveLocked = false → p.pump_exclusivity = true → s.someoneLocked = false →
      pump_water p s a = ⟨(pump_water_body p a).1, s,
        Event.acquireExclusive :: (pump_water_body p a).2 ++ [Event.releaseExclusive]⟩) ∧
    (s.exclusiveLocked = false → p.pump_exclusivity = false → s.someoneLocked = true →
      pump_water p s a = ⟨(pump_water_body p a).1, s, (pump_water_body p a).2⟩ ∧
        (pump_water p s a).trace.filter (fun e => !e.isHardware) = []) := by
  refine ⟨fun h1 => ?_, fun h1 h2 h3 => ?_, fun h1 h2 h3 => ?_, fun h1 h2 h3 => ?_⟩
  · simp [pump_water, h1]
  · simp [pump_water, h1, h2, h3]
  · simp [pump_water, h1, h2, h3]
  · refine ⟨by simp [pump_water, h1, h2, h3], ?_⟩
    simp only [pump_water, h1, h2, h3]
    simpa using pump_water_body_only_hardware p a

/-- Concrete instances of the four gate cases of pump_water. -/
theorem pump_water_gate_spec_witness :
    pump_water ⟨1, 8, false⟩ ⟨true, false⟩ 5 = ⟨.retFalse, ⟨true, false⟩, []⟩ ∧
    pump_water ⟨1, 8, true⟩ ⟨false, true⟩ 5 = ⟨.retFalse, ⟨false, true⟩, []⟩ ∧
    pump_water ⟨1, 8, true⟩ ⟨false, false⟩ 5 = ⟨(pump_water_body ⟨1, 8, true⟩ 5).1, ⟨false, false⟩,
      Event.acquireExclusive :: (pump_water_body ⟨1, 8, true⟩ 5).2 ++
        [Event.releaseExclusive]⟩ ∧
    pump_water ⟨1, 8, false⟩ ⟨false, true⟩ 5 =
      ⟨(pump_water_body ⟨1, 8, false⟩ 5).1, ⟨false, true⟩, (pump_water_body ⟨1, 8, false⟩ 5).2⟩ :=
  ⟨(pump_water_gate_spec ⟨1, 8, false⟩ ⟨true, false⟩ 5).1 rfl,
   (pump_water_gate_spec ⟨1, 8, true⟩ ⟨false, true⟩ 5).2.1 rfl rfl rfl,
   (pump_water_gate_spec ⟨1, 8, true⟩ ⟨false, false⟩ 5).2.2.1 rfl rfl rfl,
   ((pump_water_gate_spec ⟨1, 8, false⟩ ⟨false, true⟩ 5).2.2.2 rfl rfl rfl).1⟩

/-- Claim C2 counterexample: with the exclusive-pump lock held at entry, a
call with a negative amount returns False and raises no ValueError, so a
negative amount does not fail with an invalid-argument error under every
lock state. -/
theorem pump_water_negative_counterexample :
    (pump_water ⟨1, 8, false⟩ ⟨true, false⟩ (-5)).ret = .retFalse ∧
    ¬(pump_water ⟨1, 8, false⟩ ⟨true, false⟩ (-5)).ret = .raisedValueError := by decide

/-- Claim C2 as amended: a negative amount never sends a hardware command
and never waits, under every configuration and lock state; the call raises
ValueError exactly when the concurrency gate admits it (exclusive lock
free, and for an exclusive pump the someone-pumping lock also free), and
otherwise it skips, returning False. -/
theorem pump_water_negative_amended (p : Pump) (s : LockState) (a : ℚ) (h : a < 0) :
    (pump_water p s a).trace.filter Event.isHardware = [] ∧
    ((pump_water p s a).ret = .raisedValueError ↔
      s.exclusiveLocked = false ∧ (p.pump_exclusivity = true → s.someoneLocked = false)) ∧
    ((pump_water p s a).ret = .raisedValueError ∨ (pump_water p s a).ret = .retFalse) := by
  obtain ⟨e, so⟩ := s
  cases e <;> cases so <;> cases hp : p.pump_exclusivity <;>
    simp [pump_water, pump_water_body, hp, h, h.ne, Event.isHardware]

/-- The amended claim C2 at a concrete input: an exclusive pump with both
locks free raises ValueError on a negative amount, with no hardware event. -/
theorem pump_water_negative_amended_witness :
    (pump_water ⟨1, 8, true⟩ ⟨false, false⟩ (-5)).trace.filter Event.isHardware = [] ∧
    ((pump_water ⟨1, 8, true⟩ ⟨false, false⟩ (-5)).ret = .raisedValueError ↔
      (⟨false, false⟩ : LockState).exclusiveLocked = false ∧
        ((⟨1, 8, true⟩ : Pump).pump_exclusivity = true →
          (⟨false, false⟩ : LockState).someoneLocked = false)) ∧
    ((pump_water ⟨1, 8, true⟩ ⟨false, false⟩ (-5)).ret = .raisedValueError ∨
      (pump_water ⟨1, 8, true⟩ ⟨false, false⟩ (-5)).ret = .retFalse) :=
  pump_water_negative_amended ⟨1, 8, true⟩ ⟨false, false⟩ (-5) (by norm_num)

/-- Claim C3 counterexample: with both locks free, a call with amount 0
returns the Python None of the bare return, not True, so the zero-amount
no-op does not report success under the bool contract. -/
theorem pump_water_zero_counterexample :
    (pump_water ⟨1, 8, false⟩ ⟨false, false⟩ 0).ret = .retNone ∧
    ¬(pump_water ⟨1, 8, false⟩ ⟨false, false⟩ 0).ret = .retTrue := by decide

/-- Claim C3 as amended: a zero amount sends no hardware command, performs
no timed wait and raises no error, for every pump and lock state, and the
locks are back to the entry state when the call returns; but the call
returns None (falsy), never True: it returns None exactly when the
concurrency gate admits it and False when the gate skips. -/
theorem pump_water_zero_amended (p : Pump) (s : LockState) :
    (pump_water p s 0).trace.filter Event.isHardware = [] ∧
    (pump_water p s 0).ret ≠ .retTrue ∧
    (pump_water p s 0).ret ≠ .raisedValueError ∧
    ((pump_water p s 0).ret = .retNone ↔
      s.exclusiveLocked = false ∧ (p.pump_exclusivity = true → s.someoneLocked = false)) ∧
    (pump_water p s 0).locks = s := by
  obtain ⟨e, so⟩ := s
  cases e <;> cases so <;> cases hp : p.pump_exclusivity <;>
    simp [pump_water, pump_water_body, hp, Event.isHardware]

/-- The amended claim C3 at a concrete input: a non-exclusive pump with
both locks free returns None on amount 0 with an empty hardware trace. -/
theorem pump_water_zero_amended_witness :
    (pump_water ⟨1, 8, false⟩ ⟨false, false⟩ 0).trace.filter Event.isHardware = [] ∧
    (pump_water ⟨1, 8, false⟩ ⟨false, false⟩ 0).ret ≠ .retTrue ∧
    (pump_water ⟨1, 8, false⟩ ⟨false, false⟩ 0).ret ≠ .raisedValueError ∧
    ((pump_water ⟨1, 8, false⟩ ⟨false, false⟩ 0).ret = .retNone ↔
      (⟨false, false⟩ : LockState).exclusiveLocked = false ∧
        ((⟨1, 8, false⟩ : Pump).pump_exclusivity = true →
          (⟨false, false⟩ : LockState).someoneLocked = false)) ∧
    (pump_water ⟨1, 8, false⟩ ⟨false, false⟩ 0).locks = ⟨false, false⟩ :=
  pump_water_zero_amended ⟨1, 8, false⟩ ⟨false, false⟩

/-- Claim C4: when the cached reading's age per the injected clock is
strictly below the freshness threshold, _read_arduino returns the cached
bundle unchanged, issues no physical read and leaves the cache state
untouched; when the age is at or above the threshold it issues exactly one
physical read and updates both the last-read time and the cached bundle. -/
theorem caching_read_spec (now : ℚ) (current : SensorValues) (s : CacheState) :
    (now - s.last_reading_time < freshnessThreshold →
      read_arduino now current s = ⟨s.last_reading, s, 0⟩) ∧
    (now - s.last_reading_time ≥ freshnessThreshold →
      read_arduino now current s = ⟨some current, ⟨now, some current⟩, 1⟩) := by
  constructor <;> intro h
  · simp [read_arduino, not_le.mpr h]
  · simp [read_arduino, h]

/-- Claim C4 at concrete inputs: a read at age 40 returns the cached
bundle with no physical read; a read at age 50 issues one physical read
and replaces both cache fields. -/
theorem caching_read_spec_witness :
    read_arduino 40 ⟨1, 2, 3, 4⟩ ⟨0, some ⟨9, 9, 9, 9⟩⟩ =
      ⟨some ⟨9, 9, 9, 9⟩, ⟨0, some ⟨9, 9, 9, 9⟩⟩, 0⟩ ∧
    read_arduino 50 ⟨1, 2, 3, 4⟩ ⟨0, some ⟨9, 9, 9, 9⟩⟩ =
      ⟨some ⟨1, 2, 3, 4⟩, ⟨50, some ⟨1, 2, 3, 4⟩⟩, 1⟩ :=
  ⟨(caching_read_spec 40 ⟨1, 2, 3, 4⟩ ⟨0, some ⟨9, 9, 9, 9⟩⟩).1
      (by norm_num [freshnessThreshold]),
   (caching_read_spec 50 ⟨1, 2, 3, 4⟩ ⟨0, some ⟨9, 9, 9, 9⟩⟩).2
      (by norm_num [freshnessThreshold])⟩

/-- pump_if_needed calls the pump exactly when _should_pump holds. -/
theorem pump_if_needed_pumpCalled (m : PumpManager) (allowed timerExpired : Bool)
    (s : LockState) (moisture : Int) :
    (pump_if_needed m allowed timerExpired s moisture).pumpCalled =
      should_pump m allowed timerExpired moisture := by
  unfold pump_if_needed
  cases hb : should_pump m allowed timerExpired moisture
  · simp [hb]
  · simp only [hb, if_true]
    split <;> rfl

/-- Claim C5: is_running_pump_allowed is a pure predicate of the time of
day: it returns false exactly when some configured sleep window matches
the current time, a wrapping window (end before start) matching when the
time is at or after the start or before the end, a plain window matching
from its start inclusive to its end exclusive; and the window from 03:15
to 03:45 disallows at 03:15 and 03:44:59 and allows at 03:45:00 and
03:14:59, while the wrapping window from 23:30 to 00:30 disallows at
23:45 and 00:15 and allows at 12:00. -/
theorem scheduler_spec (ws : List (Nat × Nat)) (c : Nat) :
    (is_running_pump_allowed ws c = false ↔
      ∃ w ∈ ws, if w.2 < w.1 then (w.1 ≤ c ∨ c < w.2) else (w.1 ≤ c ∧ c < w.2)) ∧
    is_running_pump_allowed [(timeOfDay 3 15 0, timeOfDay 3 45 0)] (timeOfDay 3 15 0) = false ∧
    is_running_pump_allowed [(timeOfDay 3 15 0, timeOfDay 3 45 0)] (timeOfDay 3 44 59) = false ∧
    is_running_pump_allowed [(timeOfDay 3 15 0, timeOfDay 3 45 0)] (timeOfDay 3 45 0) = true ∧
    is_running_pump_allowed [(timeOfDay 3 15 0, timeOfDay 3 45 0)] (timeOfDay 3 14 59) = true ∧
    is_running_pump_allowed [(timeOfDay 23 30 0, timeOfDay 0 30 0)] (timeOfDay 23 45 0) = false ∧
    is_running_pump_allowed [(timeOfDay 23 30 0, timeOfDay 0 30 0)] (timeOfDay 0 15 0) = false ∧
    is_running_pump_allowed [(timeOfDay 23 30 0, timeOfDay 0 30 0)] (timeOfDay 12 0 0) = true := by
  refine ⟨?_, by decide⟩
  rw [← Bool.not_eq_true]
  simp only [is_running_pump_allowed, List.all_eq_true, not_forall]
  constructor
  · rintro ⟨w, hw, hnot⟩
    refine ⟨w, hw, ?_⟩
    simp only [windowDisallows] at hnot
    split at hnot <;> rename_i hsplit <;> simp_all
    omega
  · rintro ⟨w, hw, hcond⟩
    refine ⟨w, hw, ?_⟩
    simp only [windowDisallows]
    split at hcond <;> rename_i hsplit <;> simp_all
    omega

/-- The window-matching characterization of claim C5 at a concrete input:
the wrapping window from 23:30 to 00:30 disallows 23:45 because it
matches it. -/
theorem scheduler_spec_witness :
    is_running_pump_allowed [(timeOfDay 23 30 0, timeOfDay 0 30 0)] (timeOfDay 23 45 0) =
        false ↔
      ∃ w ∈ [(timeOfDay 23 30 0, timeOfDay 0 30 0)],
        if w.2 < w.1 then (w.1 ≤ timeOfDay 23 45 0 ∨ timeOfDay 23 45 0 < w.2)
        else (w.1 ≤ timeOfDay 23 45 0 ∧ timeOfDay 23 45 0 < w.2) :=
  (scheduler_spec [(timeOfDay 23 30 0, timeOfDay 0 30 0)] (timeOfDay 23 45 0)).1

/-- Claim C6: pump_if_needed does nothing and returns 0 when the scheduler
disallows pumping; when it allows, the pump is called exactly when the
moisture is below the threshold or the timer has expired; the timer is
reset exactly when the pump call returned True, so a skip (False) leaves
it untouched; with threshold 300 and amount 200, a reading of 250 under
free locks pumps and resets the timer, and a reading of 350 with the
timer not expired does not pump and returns 0. -/
theorem pump_manager_decision (m : PumpManager) (allowed timerExpired : Bool)
    (s : LockState) (moisture : Int) :
    (allowed = false →
      pump_if_needed m allowed timerExpired s moisture = ⟨0, false, false, false, []⟩) ∧
    (allowed = true →
      ((pump_if_needed m allowed timerExpired s moisture).pumpCalled = true ↔
        (moisture < m.moisture_threshold ∨ timerExpired = true))) ∧
    (should_pump m allowed timerExpired moisture = true →
      (pump_if_needed m allowed timerExpired s moisture).timerReset =
        ((pump_water m.pump s (m.pump_amount : ℚ)).ret == .retTrue)) ∧
    pump_if_needed ⟨⟨1, 8, false⟩, 300, 200⟩ true false ⟨false, false⟩ 250 =
      ⟨200, true, true, false,
        [.acquireSomeone, .hwOn 1, .clockWait (200 / 8), .hwOff 1, .releaseSomeone]⟩ ∧
    pump_if_needed ⟨⟨1, 8, false⟩, 300, 200⟩ true false ⟨false, false⟩ 350 =
      ⟨0, false, false, false, []⟩ := by
  refine ⟨fun h => ?_, fun h => ?_, fun h => ?_, ?_, ?_⟩
  · simp [pump_if_needed, should_pump, h]
  · rw [pump_if_needed_pumpCalled]
    simp [should_pump, h]
  · simp only [pump_if_needed, h, if_true]
    split <;> rename_i hr
    · simp [hr]
    · rfl
  · norm_num [pump_if_needed, should_pump, pump_water, pump_water_body]
    decide
  · norm_num [pump_if_needed, should_pump]

/-- Claim C6 at concrete inputs: a disallowed tick does nothing, an
allowed tick with moisture 250 below threshold 300 calls the pump, and a
triggered tick under a held exclusive lock does not reset the timer. -/
theorem pump_manager_decision_witness :
    pump_if_needed ⟨⟨1, 8, false⟩, 300, 200⟩ false true ⟨false, false⟩ 250 =
      ⟨0, false, false, false, []⟩ ∧
    ((pump_if_needed ⟨⟨1, 8, false⟩, 300, 200⟩ true false ⟨false, false⟩ 250).pumpCalled =
        true ↔ ((250 : Int) < 300 ∨ false = true)) ∧
    (pump_if_needed ⟨⟨1, 8, false⟩, 300, 200⟩ true false ⟨true, false⟩ 250).timerReset =
      ((pump_water ⟨1, 8, false⟩ ⟨true, false⟩ ((200 : Int) : ℚ)).ret == .retTrue) :=
  ⟨(pump_manager_decision ⟨⟨1, 8, false⟩, 300, 200⟩ false true ⟨false, false⟩ 250).1 rfl,
   (pump_manager_decision ⟨⟨1, 8, false⟩, 300, 200⟩ true false ⟨false, false⟩ 250).2.1 rfl,
   (pump_manager_decision ⟨⟨1, 8, false⟩, 300, 200⟩ true false ⟨true, false⟩ 250).2.2.1
     (by decide)⟩

/-- Claim C7: pump_if_needed returns the configured pump amount, not 0,
even when the pump call skipped because the exclusive-pump lock was held:
at moisture 250 under threshold 300 with the exclusive lock held, the pump
returns False with an empty trace (no water pumped), yet pump_if_needed
returns 200. -/
theorem pump_if_needed_skip_returns_amount :
    pump_if_needed ⟨⟨1, 8, false⟩, 300, 200⟩ true false ⟨true, false⟩ 250 =
      ⟨200, false, true, false, []⟩ ∧
    (pump_water ⟨1, 8, false⟩ ⟨true, false⟩ ((200 : Int) : ℚ)).ret = .retFalse ∧
    (pump_water ⟨1, 8, false⟩ ⟨true, false⟩ ((200 : Int) : ℚ)).trace = [] := by decide

/-- Claim C8: last_pump_time takes no pump identity and returns the latest
timestamp over all watering events the store holds, so with pump 1 last
watered at time 10 and pump 2 at time 20, the seeding for pump 1 (interval
100, now 50) uses time 20 and yields remaining 70, while seeding from pump
1's own latest event would yield 60; an empty history still seeds
remaining 0 as the claim states.  (In greenpithumb.py the call also passes
pump_id as a second argument that last_pump_time does not accept.) -/
theorem timer_seed_ignores_pump_id :
    last_pump_time [⟨1, 10, 200⟩, ⟨2, 20, 200⟩] = some 20 ∧
    (∀ r ∈ [WateringEventRecord.mk 1 10 200, ⟨2, 20, 200⟩],
      r.pump_id = 1 → r.timestamp ≤ 10) ∧
    seed_time_remaining (last_pump_time [⟨1, 10, 200⟩, ⟨2, 20, 200⟩]) 100 50 = 70 ∧
    seed_time_remaining (some 10) 100 50 = 60 ∧
    last_pump_time [] = none ∧
    seed_time_remaining (last_pump_time []) 100 50 = 0 := by decide

/-- Claim C9: try_process_next_record returns False at once on an empty
queue with the stores untouched; with a head record of a known kind it
dequeues exactly that record, appends it to the one store of its kind,
leaves every other store unchanged and returns True; with a head record of
no known kind it raises UnsupportedRecordError, dequeues the record and
inserts into no store. -/
theorem record_processor_spec (q : List Record) (st : Stores) :
    (q = [] → try_process_next_record q st = ⟨some false, [], st⟩) ∧
    (∀ r rest k, q = r :: rest → kindOf r = some k →
      (try_process_next_record q st).returned = some true ∧
      (try_process_next_record q st).queue = rest ∧
      storeOf (try_process_next_record q st).stores k = storeOf st k ++ [r] ∧
      ∀ k2, k2 ≠ k → storeOf (try_process_next_record q st).stores k2 = storeOf st k2) ∧
    (∀ r rest, q = r :: rest → kindOf r = none →
      try_process_next_record q st = ⟨none, rest, st⟩) := by
  refine ⟨fun h => by subst h; rfl, ?_, ?_⟩
  · rintro r rest k rfl hk
    cases r <;> simp only [kindOf] at hk <;>
      first
        | exact Option.noConfusion hk
        | (injection hk with hk; subst hk;
           exact ⟨rfl, rfl, rfl, fun k2 hk2 => by
             cases k2 <;> first | rfl | exact absurd rfl hk2⟩)
  · rintro r rest rfl hk
    cases r <;> simp [kindOf] at hk
    rfl

/-- Claim C9 at concrete inputs: a drain of the empty queue returns False,
processing a light record appends it to the light store and no other, and
an unrecognized record raises with no insert. -/
theorem record_processor_spec_witness :
    try_process_next_record [] ⟨[], [], [], [], [], [], [], [], []⟩ =
      ⟨some false, [], ⟨[], [], [], [], [], [], [], [], []⟩⟩ ∧
    ((try_process_next_record [.light 5] ⟨[], [], [], [], [], [], [], [], []⟩).returned =
        some true ∧
      (try_process_next_record [.light 5] ⟨[], [], [], [], [], [], [], [], []⟩).queue = [] ∧
      storeOf (try_process_next_record [.light 5]
          ⟨[], [], [], [], [], [], [], [], []⟩).stores .light =
        storeOf ⟨[], [], [], [], [], [], [], [], []⟩ .light ++ [.light 5] ∧
      ∀ k2, k2 ≠ RecordKind.light →
        storeOf (try_process_next_record [.light 5]
            ⟨[], [], [], [], [], [], [], [], []⟩).stores k2 =
          storeOf ⟨[], [], [], [], [], [], [], [], []⟩ k2) ∧
    try_process_next_record [.unrecognized 7] ⟨[], [], [], [], [], [], [], [], []⟩ =
      ⟨none, [], ⟨[], [], [], [], [], [], [], [], []⟩⟩ :=
  ⟨(record_processor_spec [] ⟨[], [], [], [], [], [], [], [], []⟩).1 rfl,
   (record_processor_spec [.light 5] ⟨[], [], [], [], [], [], [], [], []⟩).2.1
     (.light 5) [] .light rfl rfl,
   (record_processor_spec [.unrecognized 7] ⟨[], [], [], [], [], [], [], [], []⟩).2.2
     (.unrecognized 7) [] rfl rfl⟩

/-- Claim C10: when try_process_next_record raises on an unrecognized head
record, the record has already been dequeued and is not put back, the
stores are untouched, and the next call processes the next queued record. -/
theorem unsupported_record_not_rolled_back (r r2 : Record) (rest : List Record)
    (st : Stores) (k : RecordKind) (h : kindOf r = none) (h2 : kindOf r2 = some k) :
    try_process_next_record (r :: r2 :: rest) st = ⟨none, r2 :: rest, st⟩ ∧
    (try_process_next_record (r2 :: rest) st).returned = some true ∧
    (try_process_next_record (r2 :: rest) st).queue = rest := by
  cases r <;> simp [kindOf] at h
  refine ⟨rfl, ?_, ?_⟩ <;> cases r2 <;> simp [kindOf] at h2 <;> rfl

/-- Claim C10 at concrete inputs: an unrecognized record ahead of a light
record is dequeued and lost by the raising call, and the following call
processes the light record. -/
theorem unsupported_record_not_rolled_back_witness :
    try_process_next_record [.unrecognized 7, .light 5]
        ⟨[], [], [], [], [], [], [], [], []⟩ =
      ⟨none, [.light 5], ⟨[], [], [], [], [], [], [], [], []⟩⟩ ∧
    (try_process_next_record [.light 5] ⟨[], [], [], [], [], [], [], [], []⟩).returned =
      some true ∧
    (try_process_next_record [.light 5] ⟨[], [], [], [], [], [], [], [], []⟩).queue = [] :=
  unsupported_record_not_rolled_back (.unrecognized 7) (.light 5) []
    ⟨[], [], [], [], [], [], [], [], []⟩ .light rfl rfl

end GreenPiThumb
